import Mathlib

/-!
Shallow embedding of the core of the `nba_dist` repository
(`src/schedulizer.py` and `src/metrics.py`).

Modelling conventions:
  * A row of the season CSV (after datetime parsing) is a `GameRow`:
    `visitor` = column `Visitor/Neutral`, `home` = column `Home/Neutral`,
    `arena` = column `Arena`, `dt` = the parsed `game_datetime`, modelled
    as an integer number of seconds on a single timeline (Python
    `datetime` values are totally ordered and subtract to
    `timedelta.total_seconds()` seconds).
  * Python floats are modelled as rationals (`ℚ`); the float operations
    involved (subtraction, division, comparison with 0) raise no
    floating-point subtleties relevant to the claims.
  * The two data files (`nba_stadium_distances.csv`, `nba_stadiums.csv`)
    and the external `geopy.distance.geodesic` function are inputs /
    external collaborators of `schedulizer`, not code of this repository;
    the embedding takes them as parameters in an `Env`:
      - `matrix r c = some d` models a `distance_df.loc[r, c]` lookup that
        succeeds and converts to the float `d`; `none` models a lookup
        that raises `KeyError` or whose `float(...)` raises `ValueError`.
      - `teamCoords t = some (lat, long)` models membership of `t` in the
        `team_coords` dict built from `nba_stadiums.csv`.
      - `geod` models `geopy.distance.geodesic(p, q).miles`
        (great-circle distance, an external library function).
  * `pandas.DataFrame.sort_values('game_datetime')` is modelled as a
    comparison sort returning an ascending-by-`dt` permutation of its
    input (here `List.insertionSort`).  The source guarantees only the
    sortedness of the result: pandas' default sort kind (`quicksort`) is
    not stable, so the order among equal `dt` values in the model is one
    admissible outcome, not a guarantee of the source.
  * A Python function that can raise is modelled in `Except String`.
-/

/-- One (already datetime-parsed) row of the season schedule CSV. -/
structure GameRow where
  visitor : String
  home : String
  arena : String
  dt : Int
  deriving DecidableEq

/-- The external inputs of `schedulizer`: the distance matrix CSV, the
stadium coordinate CSV and the geodesic function of `geopy`. -/
structure Env where
  teamCoords : String → Option (ℚ × ℚ)
  matrix : String → String → Option ℚ
  geod : ℚ × ℚ → ℚ × ℚ → ℚ

/-- The `INTERNATIONAL_ARENAS` dict of `schedulizer.py` (lines 43-46). -/
def INTERNATIONAL_ARENAS : List (String × (ℚ × ℚ)) :=
  [("Mexico City Arena", (19.496309, -99.175429)),
   ("AccorHotels Arena", (48.8386, 2.3785))]

/-- Lookup in `INTERNATIONAL_ARENAS` (`dict.get` semantics). -/
def lookupArena (arena : String) : Option (ℚ × ℚ) :=
  (INTERNATIONAL_ARENAS.find? (fun p => p.1 == arena)).map (fun p => p.2)

/-- The `is_international` column: `team_games['Arena'].isin(INTERNATIONAL_ARENAS.keys())`
(`schedulizer.py` line 73). -/
def is_international (g : GameRow) : Bool :=
  (lookupArena g.arena).isSome

/-- The function `normalize_team_name` (`schedulizer.py` lines 194-199): fixes the one
spelling variant present in the distance matrix. -/
def normalize_team_name (name : String) : String :=
  if name = "Sacramento Kings" then "Sacremento Kings" else name

/-- The function `normalize_team_name_for_coords` (`schedulizer.py` lines 60-64): the
same fix, used for the stadium coordinate table. -/
def normalize_team_name_for_coords (name : String) : String :=
  if name = "Sacramento Kings" then "Sacremento Kings" else name

/-- The function `get_coordinates` (`schedulizer.py` lines 171-180).  For an
international game it reads `INTERNATIONAL_ARENAS[arena_name]` (a missing
key would raise `KeyError`); otherwise it looks the normalized team name
up in `team_coords` and raises `ValueError` when absent. -/
def get_coordinates (teamCoords : String → Option (ℚ × ℚ))
    (team arena : String) (is_intl : Bool) : Except String (ℚ × ℚ) :=
  if is_intl then
    match lookupArena arena with
    | some c => .ok c
    | none => .error ("KeyError: " ++ arena)
  else
    match teamCoords (normalize_team_name_for_coords team) with
    | some c => .ok c
    | none => .error ("Could not find coordinates for team: " ++ team)

/-- The matrix branch of the travel-distance computation
(`schedulizer.py` lines 201-211): normalize both names, read the matrix
cell; on success zero it when the raw names coincide; on `KeyError` /
`ValueError` degrade to `0.0`. -/
def matrixDistance (matrix : String → String → Option ℚ)
    (prev_where curr_where : String) : ℚ :=
  match matrix (normalize_team_name prev_where) (normalize_team_name curr_where) with
  | some d => if prev_where = curr_where then 0 else d
  | none => 0

/-- The travel-distance computation for one pair of consecutive games
(`schedulizer.py` lines 167-211): geodesic between resolved coordinates
when either game is at an international venue, matrix lookup otherwise. -/
def travelDistanceOf (env : Env) (prevRow currRow : GameRow) : Except String ℚ :=
  if is_international prevRow || is_international currRow then
    match get_coordinates env.teamCoords prevRow.home prevRow.arena (is_international prevRow) with
    | .error e => .error e
    | .ok pc =>
      match get_coordinates env.teamCoords currRow.home currRow.arena (is_international currRow) with
      | .error e => .error e
      | .ok cc => .ok (env.geod pc cc)
  else
    .ok (matrixDistance env.matrix prevRow.home currRow.home)

/-- One output dictionary of `schedulizer` (keys listed in
`schedulizer.py` lines 4-15 and built at lines 142-231). -/
structure BurdenRecord where
  team : String
  gameindex : Nat
  game_datetime : Int
  previous_game_datetime : Option Int
  opponent : String
  location : String
  where_played : String
  previous_where_played : Option String
  travel_distance : Option ℚ
  travel_hours : Option ℚ
  game_mile_hours_burden : Option ℚ
  deriving DecidableEq, Inhabited

/-- The record built for the first game (`schedulizer.py` lines 142-155):
all `previous_*`, travel and burden fields are `None`. -/
def gameRecordFirst (team : String) (row : GameRow) : BurdenRecord :=
  { team := team
    gameindex := 1
    game_datetime := row.dt
    previous_game_datetime := none
    opponent := if row.home = team then row.visitor else row.home
    location := if row.home = team then "home" else "away"
    where_played := row.home
    previous_where_played := none
    travel_distance := none
    travel_hours := none
    game_mile_hours_burden := none }

/-- The record built for a game with a predecessor (`schedulizer.py`
lines 156-231); `idx` is the 0-based position, so `gameindex = idx + 1`.
`travel_hours = (game_dt - prev_dt).total_seconds() / 3600`; the burden is
`travel_distance / travel_hours` when `travel_hours > 0`, else `None`. -/
def gameRecordNext (env : Env) (team : String) (idx : Nat)
    (prevRow row : GameRow) : Except String BurdenRecord :=
  match travelDistanceOf env prevRow row with
  | .error e => .error e
  | .ok d =>
    .ok { team := team
          gameindex := idx + 1
          game_datetime := row.dt
          previous_game_datetime := some prevRow.dt
          opponent := if row.home = team then row.visitor else row.home
          location := if row.home = team then "home" else "away"
          where_played := row.home
          previous_where_played := some prevRow.home
          travel_distance := some d
          travel_hours := some (((row.dt - prevRow.dt : Int) : ℚ) / 3600)
          game_mile_hours_burden :=
            if (0 : ℚ) < ((row.dt - prevRow.dt : Int) : ℚ) / 3600 then
              some (d / (((row.dt - prevRow.dt : Int) : ℚ) / 3600))
            else none }

/-- The body of the `for idx, row in team_games.iterrows()` loop of
`schedulizer.py` (lines 127-233) for the games after the first, carrying
the previous row and the running 0-based index. -/
def chainFrom (env : Env) (team : String) :
    GameRow → Nat → List GameRow → Except String (List BurdenRecord)
  | _, _, [] => .ok []
  | prev, idx, r :: rs =>
    match gameRecordNext env team idx prev r with
    | .error e => .error e
    | .ok b =>
      match chainFrom env team r (idx + 1) rs with
      | .error e => .error e
      | .ok rest => .ok (b :: rest)

/-- The filter of `schedulizer.py` lines 67-70: games where the team is
visitor or home. -/
def filterTeamGames (season : List GameRow) (team : String) : List GameRow :=
  season.filter (fun g => g.visitor == team || g.home == team)

/-- The ordering used by `team_games.sort_values('game_datetime')`. -/
def gameLE (a b : GameRow) : Prop := a.dt ≤ b.dt

instance : DecidableRel gameLE := fun a b => inferInstanceAs (Decidable (a.dt ≤ b.dt))

instance : IsTotal GameRow gameLE := ⟨fun a b => Int.le_total a.dt b.dt⟩

instance : IsTrans GameRow gameLE := ⟨fun _ _ _ => Int.le_trans⟩

/-- The sorted, filtered schedule of one team (`schedulizer.py` lines
67-70 and 115-116). -/
def sortedTeamGames (season : List GameRow) (team : String) : List GameRow :=
  List.insertionSort gameLE (filterTeamGames season team)

/-- The function `schedulizer` (`schedulizer.py` lines 30-235): filter the season to
the team's games, sort ascending by datetime, raise
`ValueError("No games found for ...")` when empty, then emit one record
per game in a single forward scan. -/
def schedulizer (env : Env) (season : List GameRow) (team : String) :
    Except String (List BurdenRecord) :=
  match sortedTeamGames season team with
  | [] => .error ("No games found for " ++ team)
  | first :: rest =>
    match chainFrom env team first 1 rest with
    | .error e => .error e
    | .ok tail => .ok (gameRecordFirst team first :: tail)

/-- The team universe of `create_schedule_mapping` (`metrics.py` lines
16-21): `sorted(set(visitors) | set(homes))`. -/
def allTeams (season : List GameRow) : List String :=
  List.insertionSort (· ≤ ·)
    ((season.map (fun g => g.visitor) ++ season.map (fun g => g.home)).dedup)

/-- The function `create_schedule_mapping` (`metrics.py` lines 4-39): one entry per
team; a per-team exception is caught and recorded as `None`
(here `Option.none`), the loop over the remaining teams continues. -/
def create_schedule_mapping (env : Env) (season : List GameRow) :
    List (String × Option (List BurdenRecord)) :=
  (allTeams season).map (fun t => (t, (schedulizer env season t).toOption))

instance {ε α : Type} [DecidableEq ε] [DecidableEq α] : DecidableEq (Except ε α) := fun x y =>
  match x, y with
  | .ok a, .ok b =>
    if h : a = b then .isTrue (by rw [h]) else .isFalse (fun hh => h (Except.ok.inj hh))
  | .ok _, .error _ => .isFalse (fun hh => Except.noConfusion hh)
  | .error _, .ok _ => .isFalse (fun hh => Except.noConfusion hh)
  | .error e, .error f =>
    if h : e = f then .isTrue (by rw [h]) else .isFalse (fun hh => h (Except.error.inj hh))

/-- A small concrete season used for witnesses: two NBA venues and one
international game. -/
def gW1 : GameRow := { visitor := "Beta", home := "Alpha", arena := "Alpha Arena", dt := 0 }

def gW2 : GameRow := { visitor := "Alpha", home := "Beta", arena := "Beta Arena", dt := 3600 }

def gW3 : GameRow := { visitor := "Beta", home := "Alpha", arena := "Mexico City Arena", dt := 7200 }

def seasonW : List GameRow := [gW1, gW2, gW3]

/-- A concrete environment for the witness season. -/
def envW : Env :=
  { teamCoords := fun t =>
      if t = "Alpha" then some (1, 2) else if t = "Beta" then some (3, 4) else none
    matrix := fun r c =>
      if r = c then some 0
      else if (r = "Alpha" ∧ c = "Beta") ∨ (r = "Beta" ∧ c = "Alpha") then some 500
      else none
    geod := fun _ _ => 100 }

/-- The burden chain of team `Alpha` in the witness season. -/
def resW : List BurdenRecord :=
  [{ team := "Alpha", gameindex := 1, game_datetime := 0,
     previous_game_datetime := none, opponent := "Beta", location := "home",
     where_played := "Alpha", previous_where_played := none,
     travel_distance := none, travel_hours := none, game_mile_hours_burden := none },
   { team := "Alpha", gameindex := 2, game_datetime := 3600,
     previous_game_datetime := some 0, opponent := "Beta", location := "away",
     where_played := "Beta", previous_where_played := some "Alpha",
     travel_distance := some 500, travel_hours := some 1, game_mile_hours_burden := some 500 },
   { team := "Alpha", gameindex := 3, game_datetime := 7200,
     previous_game_datetime := some 3600, opponent := "Beta", location := "home",
     where_played := "Alpha", previous_where_played := some "Beta",
     travel_distance := some 100, travel_hours := some 1, game_mile_hours_burden := some 100 }]

unseal Rat.ofScientific Rat.mul Rat.inv Rat.add Rat.sub in
/-- Evaluation of the witness season, shared by several witnesses below. -/
theorem schedW_eval : schedulizer envW seasonW "Alpha" = .ok resW := by decide

/-- Auxiliary: a successful `chainFrom` run yields one record per input game. -/
theorem chainFrom_length (env : Env) (team : String) :
    ∀ (rs : List GameRow) (prev : GameRow) (idx : Nat) (l : List BurdenRecord),
      chainFrom env team prev idx rs = .ok l → l.length = rs.length := by
  intro rs
  induction rs with
  | nil =>
    intro prev idx l h
    simp only [chainFrom] at h
    cases h
    rfl
  | cons g rs ih =>
    intro prev idx l h
    simp only [chainFrom] at h
    cases hg : gameRecordNext env team idx prev g with
    | error e => rw [hg] at h; cases h
    | ok b =>
      rw [hg] at h
      cases hc : chainFrom env team g (idx + 1) rs with
      | error e => rw [hc] at h; cases h
      | ok rest =>
        rw [hc] at h
        cases h
        simp [ih g (idx + 1) rest hc]

/-- Auxiliary: the record at position `i` of a successful `chainFrom` run is
built by `gameRecordNext` from the games at positions `i` (the
predecessor, counting `prev` as position 0) and `i` of the remaining
input, with running index `idx + i`. -/
theorem chainFrom_getElem (env : Env) (team : String) :
    ∀ (rs : List GameRow) (prev : GameRow) (idx : Nat) (l : List BurdenRecord),
      chainFrom env team prev idx rs = .ok l →
      ∀ i, i < rs.length →
        ∃ p c r, (prev :: rs)[i]? = some p ∧ rs[i]? = some c ∧ l[i]? = some r ∧
          gameRecordNext env team (idx + i) p c = .ok r := by
  intro rs
  induction rs with
  | nil =>
    intro prev idx l h i hi
    exact absurd hi (by simp)
  | cons g rs ih =>
    intro prev idx l h i hi
    simp only [chainFrom] at h
    cases hg : gameRecordNext env team idx prev g with
    | error e => rw [hg] at h; cases h
    | ok b =>
      rw [hg] at h
      cases hc : chainFrom env team g (idx + 1) rs with
      | error e => rw [hc] at h; cases h
      | ok rest =>
        rw [hc] at h
        cases h
        cases i with
        | zero =>
          exact ⟨prev, g, b, by simp, by simp, by simp, by simpa using hg⟩
        | succ i =>
          have hi' : i < rs.length := by simpa using hi
          obtain ⟨p, c, r, hp, hcs, hr, hrec⟩ := ih g (idx + 1) rest hc i hi'
          refine ⟨p, c, r, by simpa using hp, by simpa using hcs, by simpa using hr, ?_⟩
          have harith : idx + (i + 1) = idx + 1 + i := by omega
          rw [harith]
          exact hrec

/-- Auxiliary: shape of a successful `schedulizer` run: one record per game
of the sorted filtered schedule, the first built by `gameRecordFirst`, each
later one built by `gameRecordNext` from the two adjacent games. -/
theorem schedulizer_ok_spec (env : Env) (season : List GameRow) (team : String)
    (l : List BurdenRecord) (h : schedulizer env season team = .ok l) :
    l.length = (sortedTeamGames season team).length ∧ 0 < l.length ∧
    (∀ g, (sortedTeamGames season team)[0]? = some g →
      l[0]? = some (gameRecordFirst team g)) ∧
    ∀ i, 0 < i → i < l.length →
      ∃ p c r, (sortedTeamGames season team)[i - 1]? = some p ∧
        (sortedTeamGames season team)[i]? = some c ∧ l[i]? = some r ∧
        gameRecordNext env team i p c = .ok r := by
  unfold schedulizer at h
  cases hS : sortedTeamGames season team with
  | nil => rw [hS] at h; cases h
  | cons g gs =>
    rw [hS] at h
    dsimp only at h
    cases hc : chainFrom env team g 1 gs with
    | error e => rw [hc] at h; cases h
    | ok tail =>
      rw [hc] at h
      cases h
      have hlen := chainFrom_length env team gs g 1 tail hc
      refine ⟨by simp [hlen], by simp, ?_, ?_⟩
      · intro g' hg'
        simp at hg'
        simp [hg']
      · intro i h0 hil
        obtain ⟨j, rfl⟩ : ∃ j, i = j + 1 := ⟨i - 1, by omega⟩
        have hj : j < gs.length := by
          simp [hlen] at hil
          omega
        obtain ⟨p, c, r, hp, hcs, hr, hrec⟩ := chainFrom_getElem env team gs g 1 tail hc j hj
        refine ⟨p, c, r, by simpa using hp, by simpa using hcs, by simpa using hr, ?_⟩
        have harith : 1 + j = j + 1 := by omega
        rw [harith] at hrec
        exact hrec

/-- Auxiliary: fields of a record built by `gameRecordNext`. -/
theorem gameRecordNext_ok_spec (env : Env) (team : String) (idx : Nat)
    (prevRow row : GameRow) (r : BurdenRecord)
    (h : gameRecordNext env team idx prevRow row = .ok r) :
    ∃ d, travelDistanceOf env prevRow row = .ok d ∧
      r.gameindex = idx + 1 ∧ r.game_datetime = row.dt ∧
      r.previous_game_datetime = some prevRow.dt ∧
      r.where_played = row.home ∧ r.previous_where_played = some prevRow.home ∧
      r.travel_distance = some d ∧
      r.travel_hours = some (((row.dt - prevRow.dt : Int) : ℚ) / 3600) ∧
      r.game_mile_hours_burden =
        (if (0 : ℚ) < ((row.dt - prevRow.dt : Int) : ℚ) / 3600 then
          some (d / (((row.dt - prevRow.dt : Int) : ℚ) / 3600))
        else none) := by
  unfold gameRecordNext at h
  cases ht : travelDistanceOf env prevRow row with
  | error e => rw [ht] at h; cases h
  | ok d =>
    rw [ht] at h
    cases h
    exact ⟨d, rfl, rfl, rfl, rfl, rfl, rfl, rfl, rfl, rfl⟩

/-- Auxiliary: turn a `getElem?` fact into a `getElem` fact. -/
theorem getElem_eq_of_some {α : Type} (l : List α) (i : Nat) (a : α)
    (hi : i < l.length) (h : l[i]? = some a) : l[i] = a := by
  rw [List.getElem?_eq_getElem hi] at h
  exact Option.some.inj h

/-- C1: for every team schedule on which `schedulizer` succeeds, it returns
exactly one record per game of the team's filtered schedule, in the
chronological (sorted) order, with `gameindex` values exactly `1..N` in
order. -/
theorem C1_one_record_per_game (env : Env) (season : List GameRow) (team : String)
    (l : List BurdenRecord) (h : schedulizer env season team = .ok l) :
    l.length = (filterTeamGames season team).length ∧
    l.map (fun r => r.gameindex) = List.range' 1 l.length ∧
    l.map (fun r => r.game_datetime) =
      (sortedTeamGames season team).map (fun g => g.dt) := by
  obtain ⟨hlen, hpos, hfirst, hrest⟩ := schedulizer_ok_spec env season team l h
  have hlenS : (sortedTeamGames season team).length = (filterTeamGames season team).length := by
    simp [sortedTeamGames]
  have hS0 : 0 < (sortedTeamGames season team).length := by omega
  have hl0 : l[0]? = some (gameRecordFirst team ((sortedTeamGames season team)[0])) :=
    hfirst _ (List.getElem?_eq_getElem hS0)
  refine ⟨by omega, ?_, ?_⟩
  · apply List.ext_getElem
    · simp
    · intro i h1 h2
      simp only [List.getElem_map]
      rw [List.getElem_range'_1]
      rcases Nat.eq_zero_or_pos i with rfl | hi
      · rw [getElem_eq_of_some l 0 _ (by simpa using h1) hl0]
        rfl
      · obtain ⟨p, c, r, hp, hc2, hr, hrec⟩ := hrest i hi (by simpa using h1)
        obtain ⟨d, ht, hgi, hdt, hpdt, hwp, hpwp, htd, hth, hb⟩ :=
          gameRecordNext_ok_spec env team i p c r hrec
        rw [getElem_eq_of_some l i r (by simpa using h1) hr, hgi]
        omega
  · apply List.ext_getElem
    · simpa using hlen
    · intro i h1 h2
      simp only [List.getElem_map]
      rcases Nat.eq_zero_or_pos i with rfl | hi
      · rw [getElem_eq_of_some l 0 _ (by simpa using h1) hl0]
        rfl
      · obtain ⟨p, c, r, hp, hc2, hr, hrec⟩ := hrest i hi (by simpa using h1)
        obtain ⟨d, ht, hgi, hdt, hpdt, hwp, hpwp, htd, hth, hb⟩ :=
          gameRecordNext_ok_spec env team i p c r hrec
        rw [getElem_eq_of_some l i r (by simpa using h1) hr, hdt,
          getElem_eq_of_some _ i c (by simpa using h2) hc2]

/-- Witness for C1 at the concrete witness season. -/
theorem C1_witness :
    resW.length = (filterTeamGames seasonW "Alpha").length ∧
    resW.map (fun r => r.gameindex) = List.range' 1 resW.length ∧
    resW.map (fun r => r.game_datetime) =
      (sortedTeamGames seasonW "Alpha").map (fun g => g.dt) :=
  C1_one_record_per_game envW seasonW "Alpha" resW schedW_eval

/-- C2: the first record of every chain has all `previous_*`, travel and
burden fields null; every later record has them non-null, except that the
burden may be null when `travel_hours` is not strictly positive. -/
theorem C2_first_record_nulls (env : Env) (season : List GameRow) (team : String)
    (l : List BurdenRecord) (h : schedulizer env season team = .ok l) :
    (∀ r, l[0]? = some r →
      r.previous_game_datetime = none ∧ r.previous_where_played = none ∧
      r.travel_distance = none ∧ r.travel_hours = none ∧
      r.game_mile_hours_burden = none) ∧
    (∀ i r, 0 < i → l[i]? = some r →
      r.previous_game_datetime ≠ none ∧ r.previous_where_played ≠ none ∧
      r.travel_distance ≠ none ∧ r.travel_hours ≠ none ∧
      (r.game_mile_hours_burden = none →
        ∃ th, r.travel_hours = some th ∧ ¬ 0 < th)) := by
  obtain ⟨hlen, hpos, hfirst, hrest⟩ := schedulizer_ok_spec env season team l h
  constructor
  · intro r hr
    have hS0 : 0 < (sortedTeamGames season team).length := by omega
    have hl0 := hfirst _ (List.getElem?_eq_getElem hS0)
    rw [hl0] at hr
    cases Option.some.inj hr
    exact ⟨rfl, rfl, rfl, rfl, rfl⟩
  · intro i r hi hr
    have hil : i < l.length := (List.getElem?_eq_some_iff.mp hr).1
    obtain ⟨p, c, r', hp, hc2, hr', hrec⟩ := hrest i hi hil
    have hrr : r' = r := by
      rw [hr] at hr'
      exact Option.some.inj hr'.symm
    subst hrr
    obtain ⟨d, ht, hgi, hdt, hpdt, hwp, hpwp, htd, hth, hb⟩ :=
      gameRecordNext_ok_spec env team i p c r' hrec
    refine ⟨by simp [hpdt], by simp [hpwp], by simp [htd], by simp [hth], ?_⟩
    intro hbn
    refine ⟨_, hth, ?_⟩
    intro hpos'
    rw [hb, if_pos hpos'] at hbn
    cases hbn

/-- Witness for C2 at the concrete witness season: the first record's null
fields and the second record's non-null fields. -/
theorem C2_witness :
    (resW[0]!.previous_game_datetime = none ∧ resW[0]!.travel_hours = none) ∧
    (resW[1]!.previous_game_datetime ≠ none ∧ resW[1]!.travel_hours ≠ none) :=
  ⟨⟨((C2_first_record_nulls envW seasonW "Alpha" resW schedW_eval).1 _ rfl).1,
    ((C2_first_record_nulls envW seasonW "Alpha" resW schedW_eval).1 _ rfl).2.2.2.1⟩,
   ⟨((C2_first_record_nulls envW seasonW "Alpha" resW schedW_eval).2 1 _
      (by decide) rfl).1,
    ((C2_first_record_nulls envW seasonW "Alpha" resW schedW_eval).2 1 _
      (by decide) rfl).2.2.2.1⟩⟩

/-- C3: for records after the first, the burden is
`travel_distance / travel_hours` when `travel_hours > 0` and null when
`travel_hours <= 0`; equal consecutive datetimes give `travel_hours = 0`
and a null burden; and the division step itself never produces an error
(only coordinate resolution can). -/
theorem C3_division_guard (env : Env) (season : List GameRow) (team : String)
    (l : List BurdenRecord) (h : schedulizer env season team = .ok l) :
    (∀ i r d th, 0 < i → l[i]? = some r → r.travel_distance = some d →
      r.travel_hours = some th →
      (0 < th → r.game_mile_hours_burden = some (d / th)) ∧
      (¬ 0 < th → r.game_mile_hours_burden = none) ∧
      (r.previous_game_datetime = some r.game_datetime →
        th = 0 ∧ r.game_mile_hours_burden = none)) ∧
    (∀ idx prevRow row d, travelDistanceOf env prevRow row = .ok d →
      ∃ b, gameRecordNext env team idx prevRow row = .ok b) := by
  obtain ⟨hlen, hpos, hfirst, hrest⟩ := schedulizer_ok_spec env season team l h
  constructor
  · intro i r d th hi hr htd0 hth0
    have hil : i < l.length := (List.getElem?_eq_some_iff.mp hr).1
    obtain ⟨p, c, r', hp, hc2, hr', hrec⟩ := hrest i hi hil
    have hrr : r' = r := by
      rw [hr] at hr'
      exact Option.some.inj hr'.symm
    subst hrr
    obtain ⟨d', ht, hgi, hdt, hpdt, hwp, hpwp, htd, hth, hb⟩ :=
      gameRecordNext_ok_spec env team i p c r' hrec
    have hdd : d = d' := by
      rw [htd0] at htd
      exact Option.some.inj htd
    have hthv : th = ((c.dt - p.dt : Int) : ℚ) / 3600 := by
      rw [hth0] at hth
      exact Option.some.inj hth
    subst hdd
    refine ⟨?_, ?_, ?_⟩
    · intro hpos'
      rw [hb, if_pos (by rw [← hthv]; exact hpos'), hthv]
    · intro hneg
      rw [hb, if_neg (by rw [← hthv]; exact hneg)]
    · intro heq
      rw [hpdt, hdt] at heq
      have hdteq : p.dt = c.dt := Option.some.inj heq
      have hz : ((c.dt - p.dt : Int) : ℚ) / 3600 = 0 := by
        rw [← hdteq]
        simp
      refine ⟨by rw [hthv, hz], ?_⟩
      rw [hb, hz]
      simp
  · intro idx prevRow row d hd
    unfold gameRecordNext
    rw [hd]
    exact ⟨_, rfl⟩

/-- Witness for C3 at the concrete witness season: the second record has
`travel_hours = 1 > 0` and burden `500 / 1`. -/
theorem C3_witness : resW[1]!.game_mile_hours_burden = some (500 / 1) :=
  ((C3_division_guard envW seasonW "Alpha" resW schedW_eval).1 1 _ 500 1
    (by decide) rfl rfl rfl).1 (by norm_num)

/-- A two-game schedule whose first game is at an international venue while
both games have the same home team. -/
def gC4a : GameRow := { visitor := "Beta", home := "Alpha", arena := "Mexico City Arena", dt := 0 }

def gC4b : GameRow := { visitor := "Gamma", home := "Alpha", arena := "Alpha Arena", dt := 3600 }

def seasonC4 : List GameRow := [gC4a, gC4b]

/-- The burden chain of `Alpha` for `seasonC4` under `envW`. -/
def resC4 : List BurdenRecord :=
  [{ team := "Alpha", gameindex := 1, game_datetime := 0, previous_game_datetime := none,
     opponent := "Beta", location := "home", where_played := "Alpha",
     previous_where_played := none, travel_distance := none, travel_hours := none,
     game_mile_hours_burden := none },
   { team := "Alpha", gameindex := 2, game_datetime := 3600, previous_game_datetime := some 0,
     opponent := "Gamma", location := "home", where_played := "Alpha",
     previous_where_played := some "Alpha", travel_distance := some 100,
     travel_hours := some 1, game_mile_hours_burden := some 100 }]

unseal Rat.ofScientific Rat.mul Rat.inv Rat.add Rat.sub in
/-- C4 counterexample: when the previous game is at an international venue,
the geodesic branch is taken and the `same played_at implies 0.0` zeroing of
the matrix branch is skipped, so two consecutive games with the same
`where_played` get the geodesic distance (here the external geodesic
function `envW.geod` returns `100`; the true great-circle distance between
the Mexico City arena and any NBA home arena is likewise positive). -/
theorem C4_counterexample :
    schedulizer envW seasonC4 "Alpha" = .ok resC4 ∧
    resC4[1]!.previous_where_played = some resC4[1]!.where_played ∧
    resC4[1]!.travel_distance = some 100 ∧ some (100 : ℚ) ≠ some (0 : ℚ) := by
  decide

/-- C4 amended: the self-transition invariant holds for every pair of
consecutive games of which neither is at an international venue: equal
`where_played` forces `travel_distance = 0.0` exactly, regardless of the
matrix contents. -/
theorem C4_amended (env : Env) (season : List GameRow) (team : String)
    (l : List BurdenRecord) (h : schedulizer env season team = .ok l) :
    ∀ i p c r, 0 < i →
      (sortedTeamGames season team)[i - 1]? = some p →
      (sortedTeamGames season team)[i]? = some c →
      l[i]? = some r →
      is_international p = false → is_international c = false →
      p.home = c.home → r.travel_distance = some 0 := by
  obtain ⟨hlen, hpos, hfirst, hrest⟩ := schedulizer_ok_spec env season team l h
  intro i p c r hi hp0 hc0 hr0 hip hic hpc
  have hil : i < l.length := (List.getElem?_eq_some_iff.mp hr0).1
  obtain ⟨p', c', r', hp, hc2, hr', hrec⟩ := hrest i hi hil
  have hpp : p' = p := by rw [hp0] at hp; exact Option.some.inj hp.symm
  have hcc : c' = c := by rw [hc0] at hc2; exact Option.some.inj hc2.symm
  have hrr : r' = r := by rw [hr0] at hr'; exact Option.some.inj hr'.symm
  rw [hpp, hcc, hrr] at hrec
  obtain ⟨d, ht, hgi, hdt, hpdt, hwp, hpwp, htd, hth, hb⟩ :=
    gameRecordNext_ok_spec env team i p c r hrec
  have hd : matrixDistance env.matrix p.home c.home = d := by
    unfold travelDistanceOf at ht
    rw [hip, hic] at ht
    simp at ht
    exact ht
  have hm : matrixDistance env.matrix p.home c.home = 0 := by
    unfold matrixDistance
    cases env.matrix (normalize_team_name p.home) (normalize_team_name c.home) with
    | none => rfl
    | some dd => simp [hpc]
  rw [htd, ← hd, hm]

/-- A two-game schedule at the same NBA venue (no international game),
for the C4 amended witness. -/
def gC4c : GameRow := { visitor := "Beta", home := "Alpha", arena := "Alpha Arena", dt := 0 }

def gC4d : GameRow := { visitor := "Gamma", home := "Alpha", arena := "Alpha Arena", dt := 3600 }

def seasonC4w : List GameRow := [gC4c, gC4d]

/-- The burden chain of `Alpha` for `seasonC4w` under `envW`. -/
def resC4w : List BurdenRecord :=
  [{ team := "Alpha", gameindex := 1, game_datetime := 0, previous_game_datetime := none,
     opponent := "Beta", location := "home", where_played := "Alpha",
     previous_where_played := none, travel_distance := none, travel_hours := none,
     game_mile_hours_burden := none },
   { team := "Alpha", gameindex := 2, game_datetime := 3600, previous_game_datetime := some 0,
     opponent := "Gamma", location := "home", where_played := "Alpha",
     previous_where_played := some "Alpha", travel_distance := some 0,
     travel_hours := some 1, game_mile_hours_burden := some 0 }]

unseal Rat.ofScientific Rat.mul Rat.inv Rat.add Rat.sub in
/-- Witness for the amended C4. -/
theorem C4_witness : resC4w[1]!.travel_distance = some 0 :=
  C4_amended envW seasonC4w "Alpha" resC4w (by decide) 1 gC4c gC4d resC4w[1]!
    (by decide) (by decide) (by decide) (by decide) (by decide) (by decide) rfl

/-- C5: for a pair of consecutive games of which at least one is at an
international venue, the travel distance is the geodesic distance between
the resolved fixed coordinates of the two locations, and the distance
matrix is bypassed entirely (replacing it changes nothing for that leg). -/
theorem C5_international_bypasses_matrix (env : Env) (season : List GameRow)
    (team : String) (l : List BurdenRecord) (h : schedulizer env season team = .ok l) :
    ∀ i p c r, 0 < i →
      (sortedTeamGames season team)[i - 1]? = some p →
      (sortedTeamGames season team)[i]? = some c →
      l[i]? = some r →
      (is_international p || is_international c) = true →
      (∀ pc cc,
        get_coordinates env.teamCoords p.home p.arena (is_international p) = .ok pc →
        get_coordinates env.teamCoords c.home c.arena (is_international c) = .ok cc →
        r.travel_distance = some (env.geod pc cc)) ∧
      (∀ m, travelDistanceOf { env with matrix := m } p c = travelDistanceOf env p c) := by
  obtain ⟨hlen, hpos, hfirst, hrest⟩ := schedulizer_ok_spec env season team l h
  intro i p c r hi hp0 hc0 hr0 hintl
  have hil : i < l.length := (List.getElem?_eq_some_iff.mp hr0).1
  obtain ⟨p', c', r', hp, hc2, hr', hrec⟩ := hrest i hi hil
  have hpp : p' = p := by rw [hp0] at hp; exact Option.some.inj hp.symm
  have hcc : c' = c := by rw [hc0] at hc2; exact Option.some.inj hc2.symm
  have hrr : r' = r := by rw [hr0] at hr'; exact Option.some.inj hr'.symm
  rw [hpp, hcc, hrr] at hrec
  obtain ⟨d, ht, hgi, hdt, hpdt, hwp, hpwp, htd, hth, hb⟩ :=
    gameRecordNext_ok_spec env team i p c r hrec
  constructor
  · intro pc cc hpc hcc2
    unfold travelDistanceOf at ht
    rw [hintl, hpc, hcc2] at ht
    simp at ht
    rw [htd, ← ht]
  · intro m
    unfold travelDistanceOf
    rw [hintl]
    rfl

unseal Rat.ofScientific Rat.mul Rat.inv Rat.add Rat.sub in
/-- Witness for C5: the leg into the Mexico City game of the witness season
uses the geodesic between the previous home's coordinates and the
international arena's fixed coordinates, and replacing the matrix by an
empty one does not change that leg. -/
theorem C5_witness :
    resW[2]!.travel_distance = some (envW.geod (3, 4) (19.496309, -99.175429)) ∧
    travelDistanceOf { envW with matrix := fun _ _ => none } gW2 gW3 =
      travelDistanceOf envW gW2 gW3 :=
  ⟨(C5_international_bypasses_matrix envW seasonW "Alpha" resW schedW_eval 2 gW2 gW3
      resW[2]! (by decide) (by decide) (by decide) (by decide) (by decide)).1
      (3, 4) (19.496309, -99.175429) (by decide) (by decide),
   (C5_international_bypasses_matrix envW seasonW "Alpha" resW schedW_eval 2 gW2 gW3
      resW[2]! (by decide) (by decide) (by decide) (by decide) (by decide)).2
      (fun _ _ => none)⟩

/-- An environment whose coordinate table and matrix are both empty. -/
def env6 : Env := { teamCoords := fun _ => none, matrix := fun _ _ => none, geod := fun _ _ => 0 }

def g6a : GameRow := { visitor := "Beta", home := "Gamma", arena := "Mexico City Arena", dt := 0 }

def g6b : GameRow := { visitor := "Delta", home := "Gamma", arena := "Gamma Arena", dt := 3600 }

def season6 : List GameRow := [g6a, g6b]

unseal Rat.ofScientific Rat.mul Rat.inv Rat.add Rat.sub in
/-- C6 counterexample: on an international leg, a `where_played` team that is
absent from the stadium coordinate table does not degrade to `0.0`: the whole
computation fails with the `get_coordinates` error. -/
theorem C6_counterexample :
    schedulizer env6 season6 "Gamma" =
      .error "Could not find coordinates for team: Gamma" := by
  decide

/-- C6 amended: on legs where neither game is international, an unresolvable
location degrades to `travel_distance = 0.0` and the computation never
fails; the degrade guarantee does not extend to international legs (see the
counterexample). -/
theorem C6_amended (env : Env) (season : List GameRow) (team : String)
    (l : List BurdenRecord) (h : schedulizer env season team = .ok l) :
    ∀ i p c r, 0 < i →
      (sortedTeamGames season team)[i - 1]? = some p →
      (sortedTeamGames season team)[i]? = some c →
      l[i]? = some r →
      is_international p = false → is_international c = false →
      travelDistanceOf env p c = .ok (matrixDistance env.matrix p.home c.home) ∧
      r.travel_distance = some (matrixDistance env.matrix p.home c.home) ∧
      (env.matrix (normalize_team_name p.home) (normalize_team_name c.home) = none →
        r.travel_distance = some 0) := by
  obtain ⟨hlen, hpos, hfirst, hrest⟩ := schedulizer_ok_spec env season team l h
  intro i p c r hi hp0 hc0 hr0 hip hic
  have hil : i < l.length := (List.getElem?_eq_some_iff.mp hr0).1
  obtain ⟨p', c', r', hp, hc2, hr', hrec⟩ := hrest i hi hil
  have hpp : p' = p := by rw [hp0] at hp; exact Option.some.inj hp.symm
  have hcc : c' = c := by rw [hc0] at hc2; exact Option.some.inj hc2.symm
  have hrr : r' = r := by rw [hr0] at hr'; exact Option.some.inj hr'.symm
  rw [hpp, hcc, hrr] at hrec
  obtain ⟨d, ht, hgi, hdt, hpdt, hwp, hpwp, htd, hth, hb⟩ :=
    gameRecordNext_ok_spec env team i p c r hrec
  have hmx : travelDistanceOf env p c = .ok (matrixDistance env.matrix p.home c.home) := by
    unfold travelDistanceOf
    rw [hip, hic]
    rfl
  have hd : matrixDistance env.matrix p.home c.home = d := by
    rw [hmx] at ht
    exact Except.ok.inj ht
  refine ⟨hmx, by rw [htd, hd], ?_⟩
  intro hnone
  have hm0 : matrixDistance env.matrix p.home c.home = 0 := by
    unfold matrixDistance
    rw [hnone]
  rw [htd, ← hd, hm0]

/-- A two-game schedule with no international game, between two teams that
are absent from the (empty) distance matrix of `env6`. -/
def g6c : GameRow := { visitor := "Xi", home := "Gamma", arena := "Gamma Arena", dt := 0 }

def g6d : GameRow := { visitor := "Gamma", home := "Delta", arena := "Delta Arena", dt := 3600 }

def season6w : List GameRow := [g6c, g6d]

/-- The burden chain of `Gamma` for `season6w` under `env6`: the missing
matrix entry degrades to a zero distance. -/
def res6w : List BurdenRecord :=
  [{ team := "Gamma", gameindex := 1, game_datetime := 0, previous_game_datetime := none,
     opponent := "Xi", location := "home", where_played := "Gamma",
     previous_where_played := none, travel_distance := none, travel_hours := none,
     game_mile_hours_burden := none },
   { team := "Gamma", gameindex := 2, game_datetime := 3600, previous_game_datetime := some 0,
     opponent := "Delta", location := "away", where_played := "Delta",
     previous_where_played := some "Gamma", travel_distance := some 0,
     travel_hours := some 1, game_mile_hours_burden := some 0 }]

unseal Rat.ofScientific Rat.mul Rat.inv Rat.add Rat.sub in
/-- Witness for the amended C6. -/
theorem C6_witness :
    travelDistanceOf env6 g6c g6d = .ok (matrixDistance env6.matrix g6c.home g6d.home) ∧
    res6w[1]!.travel_distance = some 0 :=
  ⟨(C6_amended env6 season6w "Gamma" res6w (by decide) 1 g6c g6d res6w[1]!
      (by decide) (by decide) (by decide) (by decide) (by decide) (by decide)).1,
   (C6_amended env6 season6w "Gamma" res6w (by decide) 1 g6c g6d res6w[1]!
      (by decide) (by decide) (by decide) (by decide) (by decide) (by decide)).2.2
      (by decide)⟩

/-- C7: both team-name normalizers are total pure functions, idempotent, and
leave every name other than the known spelling variant unchanged. -/
theorem C7_normalize_idempotent :
    ∀ x : String,
      normalize_team_name (normalize_team_name x) = normalize_team_name x ∧
      normalize_team_name_for_coords (normalize_team_name_for_coords x) =
        normalize_team_name_for_coords x ∧
      (x ≠ "Sacramento Kings" →
        normalize_team_name x = x ∧ normalize_team_name_for_coords x = x) := by
  intro x
  by_cases hx : x = "Sacramento Kings"
  · subst hx
    exact ⟨by decide, by decide, fun hne => absurd rfl hne⟩
  · simp [normalize_team_name, normalize_team_name_for_coords, hx]

/-- Witness for C7 at a name that is not the known spelling variant. -/
theorem C7_witness :
    normalize_team_name "Boston Celtics" = "Boston Celtics" ∧
    normalize_team_name_for_coords "Boston Celtics" = "Boston Celtics" :=
  (C7_normalize_idempotent "Boston Celtics").2.2 (by decide)

/-- C9: a team whose filtered game sequence is empty makes `schedulizer`
fail with the `No games found` error; the batch mapping of `metrics.py`
still contains exactly one entry per team of the season (a chain on success,
a `none` marker on failure), never a silent omission. -/
theorem C9_empty_error_and_batch_total (env : Env) (season : List GameRow) :
    (∀ team, filterTeamGames season team = [] →
      schedulizer env season team = .error ("No games found for " ++ team)) ∧
    ((create_schedule_mapping env season).map Prod.fst = allTeams season) ∧
    (∀ t, t ∈ allTeams season →
      (t, (schedulizer env season t).toOption) ∈ create_schedule_mapping env season) ∧
    (∀ g, g ∈ season → g.visitor ∈ allTeams season ∧ g.home ∈ allTeams season) := by
  refine ⟨?_, ?_, ?_, ?_⟩
  · intro team hempty
    unfold schedulizer
    have hS : sortedTeamGames season team = [] := by
      simp [sortedTeamGames, hempty]
    rw [hS]
  · unfold create_schedule_mapping
    rw [List.map_map]
    have hcomp : (Prod.fst ∘ fun t => (t, (schedulizer env season t).toOption)) =
        (id : String → String) := rfl
    rw [hcomp, List.map_id]
  · intro t ht
    exact List.mem_map_of_mem _ ht
  · intro g hg
    constructor
    · simp only [allTeams, List.mem_insertionSort, List.mem_dedup, List.mem_append,
        List.mem_map]
      exact Or.inl ⟨g, hg, rfl⟩
    · simp only [allTeams, List.mem_insertionSort, List.mem_dedup, List.mem_append,
        List.mem_map]
      exact Or.inr ⟨g, hg, rfl⟩

unseal Rat.ofScientific Rat.mul Rat.inv Rat.add Rat.sub in
/-- Witness for C9: a team with no games fails with the expected error, and
the batch mapping contains the per-team entry for a team that appears. -/
theorem C9_witness :
    schedulizer envW seasonW "Nobody" = .error ("No games found for " ++ "Nobody") ∧
    ("Alpha", (schedulizer envW seasonW "Alpha").toOption) ∈
      create_schedule_mapping envW seasonW ∧
    gW1.visitor ∈ allTeams seasonW :=
  ⟨(C9_empty_error_and_batch_total envW seasonW).1 "Nobody" (by decide),
   (C9_empty_error_and_batch_total envW seasonW).2.2.1 "Alpha"
     ((C9_empty_error_and_batch_total envW seasonW).2.2.2 gW1 (by simp [seasonW])).2,
   ((C9_empty_error_and_batch_total envW seasonW).2.2.2 gW1 (by simp [seasonW])).1⟩

/-- C10: because the schedule is sorted ascending by datetime before the
forward scan, every record after the first has a defined, non-negative
`travel_hours`; it can only fail to be strictly positive when it is exactly
zero, which happens exactly when the two consecutive datetimes coincide. -/
theorem C10_travel_hours_nonneg (env : Env) (season : List GameRow) (team : String)
    (l : List BurdenRecord) (h : schedulizer env season team = .ok l) :
    ∀ i r, 0 < i → l[i]? = some r →
      r.travel_hours ≠ none ∧
      ∀ th, r.travel_hours = some th →
        0 ≤ th ∧ (th ≤ 0 → th = 0 ∧ r.previous_game_datetime = some r.game_datetime) := by
  obtain ⟨hlen, hpos, hfirst, hrest⟩ := schedulizer_ok_spec env season team l h
  intro i r hi hr0
  have hil : i < l.length := (List.getElem?_eq_some_iff.mp hr0).1
  obtain ⟨p, c, r', hp, hc2, hr', hrec⟩ := hrest i hi hil
  have hrr : r' = r := by rw [hr0] at hr'; exact Option.some.inj hr'.symm
  rw [hrr] at hrec
  obtain ⟨d, ht, hgi, hdt, hpdt, hwp, hpwp, htd, hth, hb⟩ :=
    gameRecordNext_ok_spec env team i p c r hrec
  have hsorted : List.Sorted gameLE (sortedTeamGames season team) :=
    List.sorted_insertionSort gameLE (filterTeamGames season team)
  have hiS : i < (sortedTeamGames season team).length :=
    (List.getElem?_eq_some_iff.mp hc2).1
  have hi1S : i - 1 < (sortedTeamGames season team).length :=
    (List.getElem?_eq_some_iff.mp hp).1
  have hple : p.dt ≤ c.dt := by
    have hpair := List.pairwise_iff_getElem.mp hsorted (i - 1) i hi1S hiS (by omega)
    rw [getElem_eq_of_some _ (i - 1) p hi1S hp, getElem_eq_of_some _ i c hiS hc2] at hpair
    exact hpair
  have hnum : (0 : ℚ) ≤ ((c.dt - p.dt : Int) : ℚ) := by
    have : (0 : Int) ≤ c.dt - p.dt := by omega
    exact_mod_cast this
  have hthnn : (0 : ℚ) ≤ ((c.dt - p.dt : Int) : ℚ) / 3600 :=
    div_nonneg hnum (by norm_num)
  refine ⟨by simp [hth], ?_⟩
  intro th hth0
  have hthv : th = ((c.dt - p.dt : Int) : ℚ) / 3600 := by
    rw [hth0] at hth
    exact Option.some.inj hth
  constructor
  · rw [hthv]
    exact hthnn
  · intro hle
    have hz : th = 0 := le_antisymm hle (hthv ▸ hthnn)
    refine ⟨hz, ?_⟩
    have hnumz : ((c.dt - p.dt : Int) : ℚ) = 0 := by
      have h36 : ((c.dt - p.dt : Int) : ℚ) / 3600 = 0 := by rw [← hthv, hz]
      rcases div_eq_zero_iff.mp h36 with h0 | h0
      · exact h0
      · norm_num at h0
    have hdteq : c.dt = p.dt := by
      have : (c.dt - p.dt : Int) = 0 := by exact_mod_cast hnumz
      omega
    rw [hpdt, hdt, hdteq]

unseal Rat.ofScientific Rat.mul Rat.inv Rat.add Rat.sub in
/-- Witness for C10 at the witness season's second record. -/
theorem C10_witness : resW[1]!.travel_hours ≠ none ∧ 0 ≤ (1 : ℚ) :=
  ⟨(C10_travel_hours_nonneg envW seasonW "Alpha" resW schedW_eval 1 resW[1]!
      (by decide) (by decide)).1,
   ((C10_travel_hours_nonneg envW seasonW "Alpha" resW schedW_eval 1 resW[1]!
      (by decide) (by decide)).2 1 (by decide)).1⟩
